import Mathlib

/-!
Shallow embedding of the inventory ledger and daily-snapshot engine of the
badshahpizzahub repository.

The operative code is the pair of PL/pgSQL routines installed by the
"Add Consumption Tracking to Inventory" migration (`log_inventory_change`,
`update_daily_snapshot`), the `products_quantity_change` trigger
(AFTER UPDATE on `products`, FOR EACH ROW), and the table declarations of
`inventory_history` and `daily_inventory_snapshots`
(`UNIQUE(product_id, snapshot_date)`, foreign keys to `products`).

Modelling decisions:
* `products.quantity` is SQL `integer NOT NULL`; the `numeric` ledger and
  snapshot columns only ever receive values derived from it through these
  code paths, so quantities are `Int`.
* Product ids are `Nat`; `CURRENT_DATE` is a `Nat` day index passed
  explicitly; `created_at` ordering is the append order of the history list.
* A statement that the database rejects (foreign-key, unique or not-null
  violation) aborts the transaction, so the failing operation returns
  `Except.error` and a failing step leaves the state unchanged.
* `INSERT ... SELECT ... FROM products WHERE id = p` inserts zero rows when
  no such product exists: that branch succeeds without touching the state.
-/

namespace Inventory

/-- The `activity_type` check constraint values of `inventory_history`. -/
inductive Activity where
  | opening_stock
  | purchase
  | sale
  | consumption
  | adjustment
  | daily_snapshot
deriving DecidableEq, Repr

/-- The `reference_type` check constraint values of `inventory_history`. -/
inductive RefType where
  | purchase_order
  | invoice
  | manual
  | system
deriving DecidableEq, Repr

/-- One row of `inventory_history`. -/
structure LedgerEntry where
  product_id : Nat
  activity_type : Activity
  quantity_before : Int
  quantity_change : Int
  quantity_after : Int
  reference_type : Option RefType
  reference_id : Option Nat
  notes : String
deriving DecidableEq, Repr

/-- One row of `daily_inventory_snapshots`. -/
structure Snapshot where
  product_id : Nat
  snapshot_date : Nat
  opening_stock : Int
  purchases : Int
  sales : Int
  adjustments : Int
  closing_stock : Int
  max_stock : Int
deriving DecidableEq, Repr

/-- Database errors surfaced by constraint violations. -/
inductive DBErr where
  | foreignKeyViolation
  | uniqueViolation
  | notNullViolation
deriving DecidableEq, Repr

/-- The three tables the engine touches. `history` is kept in creation
order (rows are only ever appended). -/
structure DBState where
  products : List (Nat × Int)
  history : List LedgerEntry
  snapshots : List Snapshot
deriving DecidableEq, Repr

/-- `SELECT quantity FROM products WHERE id = pid` (scalar subquery:
`none` when the product does not exist). -/
def lookupQty (st : DBState) (pid : Nat) : Option Int :=
  (st.products.find? (fun p => p.1 == pid)).map (fun p => p.2)

/-- The `EXISTS(SELECT 1 FROM daily_inventory_snapshots WHERE product_id =
pid AND snapshot_date = today)` test of `update_daily_snapshot`. -/
def snapshotExists (st : DBState) (pid today : Nat) : Bool :=
  st.snapshots.any (fun s => s.product_id == pid && s.snapshot_date == today)

/-- The `UPDATE daily_inventory_snapshots SET ...` row transformation of
`update_daily_snapshot`: route the magnitude into the bucket selected by
the activity type, re-read `closing_stock` from the live product quantity,
and take `GREATEST` for `max_stock`. Key columns are untouched. -/
def applySnapshotUpdate (act : Activity) (q liveQty : Int) (s : Snapshot) : Snapshot :=
  { s with
    purchases := if act = Activity.purchase then s.purchases + q else s.purchases
    sales := if act = Activity.sale ∨ act = Activity.consumption then s.sales + q else s.sales
    adjustments := if act = Activity.adjustment then s.adjustments + q else s.adjustments
    closing_stock := liveQty
    max_stock := max s.max_stock liveQty }

/-- `update_daily_snapshot(p_product_id, p_activity_type, p_quantity)`
from the consumption-tracking migration. When today's snapshot exists, the
`UPDATE` branch runs (a missing product would make the scalar subquery
NULL and violate `closing_stock NOT NULL`, aborting); otherwise the
`INSERT ... SELECT ... FROM products WHERE id = p_product_id` branch runs,
which inserts zero rows when the product does not exist. -/
def update_daily_snapshot (pid : Nat) (act : Activity) (q : Int) (today : Nat)
    (st : DBState) : Except DBErr DBState :=
  if snapshotExists st pid today then
    match lookupQty st pid with
    | none => Except.error DBErr.notNullViolation
    | some liveQty =>
        Except.ok { st with snapshots := st.snapshots.map (fun s =>
          if s.product_id == pid && s.snapshot_date == today then
            applySnapshotUpdate act q liveQty s
          else s) }
  else
    match lookupQty st pid with
    | none => Except.ok st
    | some qty =>
        Except.ok { st with snapshots := st.snapshots ++ [{
          product_id := pid
          snapshot_date := today
          opening_stock := qty
          purchases := if act = Activity.purchase then q else 0
          sales := if act = Activity.sale ∨ act = Activity.consumption then q else 0
          adjustments := if act = Activity.adjustment then q else 0
          closing_stock := qty
          max_stock := qty }] }

/-- The sign-based classifier inside `log_inventory_change`:
`NEW.quantity < OLD.quantity` gives `consumption`, otherwise `adjustment`
(the branch only runs when the quantities differ). -/
def classify (oldQty newQty : Int) : Activity :=
  if newQty < oldQty then Activity.consumption else Activity.adjustment

/-- The `v_notes` value chosen alongside the classifier. -/
def classifyNotes (oldQty newQty : Int) : String :=
  if newQty < oldQty then "Manual stock consumption/usage" else "Manual stock adjustment"

/-- `INSERT INTO inventory_history ...`: the table declares
`product_id REFERENCES products(id) NOT NULL` and check constraints on the
enumerated columns (carried by the types here), but no check relating
`quantity_before`, `quantity_change` and `quantity_after` and no check
excluding a zero `quantity_change`. -/
def insert_inventory_history (st : DBState) (e : LedgerEntry) : Except DBErr DBState :=
  match lookupQty st e.product_id with
  | some _ => Except.ok { st with history := st.history ++ [e] }
  | none => Except.error DBErr.foreignKeyViolation

/-- The row the `INSERT INTO inventory_history (...) VALUES (...)` of
`log_inventory_change` builds: classified activity, old/new quantities and
their difference, `reference_type` `'manual'`, no reference id. -/
def manualEntry (pid : Nat) (oldQty newQty : Int) : LedgerEntry :=
  { product_id := pid
    activity_type := classify oldQty newQty
    quantity_before := oldQty
    quantity_change := newQty - oldQty
    quantity_after := newQty
    reference_type := some RefType.manual
    reference_id := none
    notes := classifyNotes oldQty newQty }

/-- The body of `log_inventory_change()` for one updated `products` row
with `OLD.quantity = oldQty` and `NEW.quantity = newQty` (the trigger is
AFTER UPDATE, so `st` already holds the new quantity): when the quantity
changed, classify, insert the history row with `reference_type` `'manual'`,
and `PERFORM update_daily_snapshot(NEW.id, v_activity_type,
ABS(NEW.quantity - OLD.quantity))`. -/
def log_inventory_change (pid : Nat) (oldQty newQty : Int) (today : Nat)
    (st : DBState) : Except DBErr DBState :=
  if oldQty = newQty then Except.ok st
  else
    match insert_inventory_history st (manualEntry pid oldQty newQty) with
    | Except.error er => Except.error er
    | Except.ok st1 =>
        update_daily_snapshot pid (classify oldQty newQty) |newQty - oldQty| today st1

/-- `UPDATE products SET quantity = q WHERE id = pid` without the trigger. -/
def setProductQty (st : DBState) (pid : Nat) (q : Int) : DBState :=
  { st with products := st.products.map (fun p => if p.1 == pid then (p.1, q) else p) }

/-- `UPDATE products SET quantity = newQty WHERE id = pid` together with
the `products_quantity_change` AFTER UPDATE trigger. An id matching no row
updates nothing and fires no trigger. -/
def setQuantity (pid : Nat) (newQty : Int) (today : Nat) (st : DBState) :
    Except DBErr DBState :=
  match lookupQty st pid with
  | none => Except.ok st
  | some oldQty =>
      log_inventory_change pid oldQty newQty today (setProductQty st pid newQty)

/-- One quantity write request: product id, new quantity, day of execution. -/
structure Write where
  pid : Nat
  newQty : Int
  day : Nat
deriving DecidableEq, Repr

/-- Execute one write as a transaction: an aborted transaction leaves no
visible change. -/
def stepWrite (st : DBState) (w : Write) : DBState :=
  match setQuantity w.pid w.newQty w.day st with
  | Except.ok st1 => st1
  | Except.error _ => st

/-- Execute a sequence of writes in order. -/
def runWrites (st : DBState) (ws : List Write) : DBState :=
  ws.foldl stepWrite st

/-! ### Basic lemmas about the embedded operations -/

theorem find_map_set (l : List (Nat × Int)) (pid : Nat) (q : Int)
    (h : (l.find? (fun p => p.1 == pid)).isSome) :
    (l.map (fun p => if p.1 == pid then (p.1, q) else p)).find? (fun p => p.1 == pid)
      = some (pid, q) := by
  induction l with
  | nil => simp at h
  | cons p ps ih =>
      rw [List.map_cons]
      by_cases hp : (p.1 == pid) = true
      · have hp' : p.1 = pid := by simpa using hp
        rw [if_pos hp, List.find?_cons, show ((p.1, q).1 == pid) = true from hp, hp']
      · have hp0 : (p.1 == pid) = false := by simpa using hp
        rw [if_neg hp, List.find?_cons, hp0]
        apply ih
        rw [List.find?_cons, hp0] at h
        exact h

theorem find_map_set_ne (l : List (Nat × Int)) (pid pid' : Nat) (q : Int)
    (hne : pid' ≠ pid) :
    (l.map (fun p => if p.1 == pid then (p.1, q) else p)).find? (fun p => p.1 == pid')
      = l.find? (fun p => p.1 == pid') := by
  induction l with
  | nil => simp
  | cons p ps ih =>
      rw [List.map_cons]
      by_cases hp : (p.1 == pid) = true
      · have hp' : p.1 = pid := by simpa using hp
        have h3 : (p.1 == pid') = false := by
          simp only [beq_eq_false_iff_ne, ne_eq, hp']
          exact fun h => hne h.symm
        rw [if_pos hp, List.find?_cons, show ((p.1, q).1 == pid') = false from h3,
          List.find?_cons, h3, ih]
      · by_cases hq : (p.1 == pid') = true
        · rw [if_neg hp, List.find?_cons, hq, List.find?_cons, hq]
        · have hq0 : (p.1 == pid') = false := by simpa using hq
          rw [if_neg hp, List.find?_cons, hq0, List.find?_cons, hq0, ih]

theorem lookupQty_setProductQty_self (st : DBState) (pid : Nat) (q v : Int)
    (h : lookupQty st pid = some v) :
    lookupQty (setProductQty st pid q) pid = some q := by
  have hs : (st.products.find? (fun p => p.1 == pid)).isSome := by
    unfold lookupQty at h
    cases hf : st.products.find? (fun p => p.1 == pid) with
    | none => rw [hf] at h; simp at h
    | some p => rfl
  show ((st.products.map (fun p => if p.1 == pid then (p.1, q) else p)).find?
      (fun p => p.1 == pid)).map (fun p => p.2) = some q
  rw [find_map_set st.products pid q hs]
  rfl

theorem lookupQty_setProductQty_ne (st : DBState) (pid pid' : Nat) (q : Int)
    (hne : pid' ≠ pid) :
    lookupQty (setProductQty st pid q) pid' = lookupQty st pid' := by
  show ((st.products.map (fun p => if p.1 == pid then (p.1, q) else p)).find?
      (fun p => p.1 == pid')).map (fun p => p.2) = lookupQty st pid'
  rw [find_map_set_ne st.products pid pid' q hne]
  rfl

theorem setProductQty_history (st : DBState) (pid : Nat) (q : Int) :
    (setProductQty st pid q).history = st.history := rfl

theorem setProductQty_snapshots (st : DBState) (pid : Nat) (q : Int) :
    (setProductQty st pid q).snapshots = st.snapshots := rfl

theorem update_daily_snapshot_exists_eq (pid : Nat) (act : Activity) (q : Int)
    (today : Nat) (st : DBState) (v : Int)
    (h1 : snapshotExists st pid today = true) (h2 : lookupQty st pid = some v) :
    update_daily_snapshot pid act q today st =
      Except.ok { st with snapshots := st.snapshots.map (fun s =>
        if s.product_id == pid && s.snapshot_date == today then
          applySnapshotUpdate act q v s
        else s) } := by
  unfold update_daily_snapshot
  rw [h1, h2]
  simp

theorem update_daily_snapshot_new_eq (pid : Nat) (act : Activity) (q : Int)
    (today : Nat) (st : DBState) (v : Int)
    (h1 : snapshotExists st pid today = false) (h2 : lookupQty st pid = some v) :
    update_daily_snapshot pid act q today st =
      Except.ok { st with snapshots := st.snapshots ++ [{
        product_id := pid
        snapshot_date := today
        opening_stock := v
        purchases := if act = Activity.purchase then q else 0
        sales := if act = Activity.sale ∨ act = Activity.consumption then q else 0
        adjustments := if act = Activity.adjustment then q else 0
        closing_stock := v
        max_stock := v }] } := by
  unfold update_daily_snapshot
  rw [h1, h2]
  simp

theorem update_daily_snapshot_products_history (pid : Nat) (act : Activity)
    (q : Int) (today : Nat) (st st' : DBState)
    (h : update_daily_snapshot pid act q today st = Except.ok st') :
    st'.products = st.products ∧ st'.history = st.history := by
  unfold update_daily_snapshot at h
  by_cases he : snapshotExists st pid today
  · rw [if_pos he] at h
    cases hl : lookupQty st pid with
    | none => rw [hl] at h; simp at h
    | some v =>
        rw [hl] at h
        simp only [Except.ok.injEq] at h
        subst h
        exact ⟨rfl, rfl⟩
  · rw [if_neg he] at h
    cases hl : lookupQty st pid with
    | none =>
        rw [hl] at h
        simp only [Except.ok.injEq] at h
        subst h
        exact ⟨rfl, rfl⟩
    | some v =>
        rw [hl] at h
        simp only [Except.ok.injEq] at h
        subst h
        exact ⟨rfl, rfl⟩

theorem setQuantity_none (st : DBState) (pid : Nat) (q : Int) (d : Nat)
    (h : lookupQty st pid = none) :
    setQuantity pid q d st = Except.ok st := by
  unfold setQuantity
  rw [h]

theorem setQuantity_noop (st : DBState) (pid : Nat) (q : Int) (d : Nat)
    (h : lookupQty st pid = some q) :
    setQuantity pid q d st = Except.ok (setProductQty st pid q) := by
  simp [setQuantity, log_inventory_change, h]

theorem setQuantity_effective_eq (st : DBState) (pid : Nat) (oldQty newQty : Int)
    (d : Nat) (h : lookupQty st pid = some oldQty) (hne : ¬ oldQty = newQty) :
    setQuantity pid newQty d st =
      update_daily_snapshot pid (classify oldQty newQty) |newQty - oldQty| d
        { products := (setProductQty st pid newQty).products
          history := st.history ++ [manualEntry pid oldQty newQty]
          snapshots := st.snapshots } := by
  have hl : lookupQty (setProductQty st pid newQty) pid = some newQty :=
    lookupQty_setProductQty_self st pid newQty oldQty h
  simp only [setQuantity, h, log_inventory_change, if_neg hne,
    insert_inventory_history, manualEntry, hl, setProductQty_history,
    setProductQty_snapshots]

theorem stepWrite_eq_of_none (st : DBState) (w : Write)
    (h : lookupQty st w.pid = none) : stepWrite st w = st := by
  unfold stepWrite
  rw [setQuantity_none st w.pid w.newQty w.day h]

theorem stepWrite_eq_of_noop (st : DBState) (w : Write)
    (h : lookupQty st w.pid = some w.newQty) :
    stepWrite st w = setProductQty st w.pid w.newQty := by
  unfold stepWrite
  rw [setQuantity_noop st w.pid w.newQty w.day h]

theorem stepWrite_effective_exists (st : DBState) (w : Write) (oldQty : Int)
    (h : lookupQty st w.pid = some oldQty) (hne : ¬ oldQty = w.newQty)
    (hs : snapshotExists st w.pid w.day = true) :
    stepWrite st w =
      { products := (setProductQty st w.pid w.newQty).products
        history := st.history ++ [manualEntry w.pid oldQty w.newQty]
        snapshots := st.snapshots.map (fun s =>
          if s.product_id == w.pid && s.snapshot_date == w.day then
            applySnapshotUpdate (classify oldQty w.newQty) |w.newQty - oldQty| w.newQty s
          else s) } := by
  unfold stepWrite
  rw [setQuantity_effective_eq st w.pid oldQty w.newQty w.day h hne]
  rw [update_daily_snapshot_exists_eq w.pid (classify oldQty w.newQty)
    |w.newQty - oldQty| w.day
    { products := (setProductQty st w.pid w.newQty).products
      history := st.history ++ [manualEntry w.pid oldQty w.newQty]
      snapshots := st.snapshots }
    w.newQty hs (lookupQty_setProductQty_self st w.pid w.newQty oldQty h)]

theorem stepWrite_effective_new (st : DBState) (w : Write) (oldQty : Int)
    (h : lookupQty st w.pid = some oldQty) (hne : ¬ oldQty = w.newQty)
    (hs : snapshotExists st w.pid w.day = false) :
    stepWrite st w =
      { products := (setProductQty st w.pid w.newQty).products
        history := st.history ++ [manualEntry w.pid oldQty w.newQty]
        snapshots := st.snapshots ++ [{
          product_id := w.pid
          snapshot_date := w.day
          opening_stock := w.newQty
          purchases := if classify oldQty w.newQty = Activity.purchase then
            |w.newQty - oldQty| else 0
          sales := if classify oldQty w.newQty = Activity.sale ∨
              classify oldQty w.newQty = Activity.consumption then
            |w.newQty - oldQty| else 0
          adjustments := if classify oldQty w.newQty = Activity.adjustment then
            |w.newQty - oldQty| else 0
          closing_stock := w.newQty
          max_stock := w.newQty }] } := by
  unfold stepWrite
  rw [setQuantity_effective_eq st w.pid oldQty w.newQty w.day h hne]
  rw [update_daily_snapshot_new_eq w.pid (classify oldQty w.newQty)
    |w.newQty - oldQty| w.day
    { products := (setProductQty st w.pid w.newQty).products
      history := st.history ++ [manualEntry w.pid oldQty w.newQty]
      snapshots := st.snapshots }
    w.newQty hs (lookupQty_setProductQty_self st w.pid w.newQty oldQty h)]

theorem stepWrite_effective_core (st : DBState) (w : Write) (oldQty : Int)
    (h : lookupQty st w.pid = some oldQty) (hne : ¬ oldQty = w.newQty) :
    (stepWrite st w).products = (setProductQty st w.pid w.newQty).products
    ∧ (stepWrite st w).history = st.history ++ [manualEntry w.pid oldQty w.newQty] := by
  by_cases hs : snapshotExists st w.pid w.day = true
  · rw [stepWrite_effective_exists st w oldQty h hne hs]
    exact ⟨rfl, rfl⟩
  · have hs' : snapshotExists st w.pid w.day = false := by simpa using hs
    rw [stepWrite_effective_new st w oldQty h hne hs']
    exact ⟨rfl, rfl⟩

theorem lookupQty_congr (st1 st2 : DBState) (p : Nat)
    (h : st1.products = st2.products) : lookupQty st1 p = lookupQty st2 p := by
  unfold lookupQty
  rw [h]

theorem lookupQty_setProductQty_same (st : DBState) (pid : Nat) (q : Int)
    (h : lookupQty st pid = some q) (p : Nat) :
    lookupQty (setProductQty st pid q) p = lookupQty st p := by
  by_cases hp : p = pid
  · subst hp
    rw [lookupQty_setProductQty_self st p q q h, h]
  · exact lookupQty_setProductQty_ne st pid p q hp

/-! ### The ledger invariant: arithmetic identity, continuity, linking -/

/-- The `inventory_history` rows of one product, in creation order
(`ORDER BY created_at`). -/
def entriesFor (st : DBState) (pid : Nat) : List LedgerEntry :=
  st.history.filter (fun e => e.product_id == pid)

/-- Every history row satisfies
`quantity_after = quantity_before + quantity_change`. -/
def ArithOk (st : DBState) : Prop :=
  ∀ e ∈ st.history, e.quantity_after = e.quantity_before + e.quantity_change

/-- The continuity relation between two consecutive ledger entries. -/
def chainRel (a b : LedgerEntry) : Prop :=
  a.quantity_after = b.quantity_before

/-- Consecutive history rows of a product chain:
`quantity_before` of row N+1 equals `quantity_after` of row N. -/
def ChainOk (st : DBState) (pid : Nat) : Prop :=
  List.Chain' chainRel (entriesFor st pid)

/-- The last history row of a product ends at the product's live quantity. -/
def LastLinked (st : DBState) : Prop :=
  ∀ pid q, lookupQty st pid = some q →
    ∀ e, (entriesFor st pid).getLast? = some e → e.quantity_after = q

/-- The combined ledger invariant maintained by the trigger. -/
def LedgerInv (st : DBState) : Prop :=
  ArithOk st ∧ (∀ pid, ChainOk st pid) ∧ LastLinked st

theorem ledgerInv_of_no_history (st : DBState) (h : st.history = []) :
    LedgerInv st := by
  refine ⟨?_, ?_, ?_⟩
  · intro e he
    rw [h] at he
    simp at he
  · intro pid
    unfold ChainOk entriesFor
    rw [h]
    simp
  · intro pid q hq e he
    unfold entriesFor at he
    rw [h] at he
    simp at he

theorem ledgerInv_step (st : DBState) (w : Write) (h : LedgerInv st) :
    LedgerInv (stepWrite st w) := by
  obtain ⟨ha, hc, hl⟩ := h
  cases hq : lookupQty st w.pid with
  | none =>
      rw [stepWrite_eq_of_none st w hq]
      exact ⟨ha, hc, hl⟩
  | some oldQty =>
      by_cases hne : oldQty = w.newQty
      · have hq' : lookupQty st w.pid = some w.newQty := by rw [hq, hne]
        rw [stepWrite_eq_of_noop st w hq']
        refine ⟨ha, hc, ?_⟩
        intro pid q hpq e he
        rw [lookupQty_setProductQty_same st w.pid w.newQty hq' pid] at hpq
        exact hl pid q hpq e he
      · obtain ⟨hp, hh⟩ := stepWrite_effective_core st w oldQty hq hne
        have hlook : ∀ p, lookupQty (stepWrite st w) p =
            if p = w.pid then some w.newQty else lookupQty st p := by
          intro p
          rw [lookupQty_congr _ _ p hp]
          by_cases hpw : p = w.pid
          · subst hpw
            rw [if_pos rfl]
            exact lookupQty_setProductQty_self st w.pid w.newQty oldQty hq
          · rw [if_neg hpw]
            exact lookupQty_setProductQty_ne st w.pid p w.newQty hpw
        have hent : ∀ pid, entriesFor (stepWrite st w) pid =
            entriesFor st pid ++
              (if w.pid = pid then [manualEntry w.pid oldQty w.newQty] else []) := by
          intro pid
          unfold entriesFor
          rw [hh, List.filter_append]
          congr 1
          by_cases hpid : w.pid = pid
          · simp [manualEntry, hpid]
          · simp [manualEntry, hpid]
        refine ⟨?_, ?_, ?_⟩
        · intro e he
          rw [hh] at he
          rcases List.mem_append.mp he with h1 | h2
          · exact ha e h1
          · have he2 : e = manualEntry w.pid oldQty w.newQty := by simpa using h2
            subst he2
            show w.newQty = oldQty + (w.newQty - oldQty)
            ring
        · intro pid
          unfold ChainOk
          rw [hent pid]
          by_cases hpid : w.pid = pid
          · rw [if_pos hpid]
            rw [List.chain'_append]
            refine ⟨hc pid, by simp, ?_⟩
            intro x hx y hy
            have hy' : manualEntry w.pid oldQty w.newQty = y := by simpa using hy
            subst hy'
            subst hpid
            have hx' : (entriesFor st w.pid).getLast? = some x := by simpa using hx
            show x.quantity_after = oldQty
            exact hl w.pid oldQty hq x hx'
          · rw [if_neg hpid, List.append_nil]
            exact hc pid
        · intro pid q hpq e he
          rw [hlook pid] at hpq
          rw [hent pid] at he
          by_cases hpid : pid = w.pid
          · subst hpid
            rw [if_pos rfl] at hpq
            rw [if_pos rfl, List.getLast?_concat] at he
            have he' : e = manualEntry w.pid oldQty w.newQty :=
              (Option.some.inj he).symm
            subst he'
            have hq2 : w.newQty = q := Option.some.inj hpq
            show w.newQty = q
            exact hq2
          · rw [if_neg hpid] at hpq
            have hne2 : ¬ w.pid = pid := fun hcon => hpid hcon.symm
            rw [if_neg hne2, List.append_nil] at he
            exact hl pid q hpq e he

theorem ledgerInv_run (st : DBState) (ws : List Write) (h : LedgerInv st) :
    LedgerInv (runWrites st ws) := by
  induction ws generalizing st with
  | nil => exact h
  | cons w ws ih => exact ih (stepWrite st w) (ledgerInv_step st w h)

theorem setQuantity_effective_ok (st : DBState) (pid : Nat) (oldQty newQty : Int)
    (d : Nat) (h : lookupQty st pid = some oldQty) (hne : ¬ oldQty = newQty) :
    ∃ st', setQuantity pid newQty d st = Except.ok st'
      ∧ st'.history = st.history ++ [manualEntry pid oldQty newQty]
      ∧ st'.products = (setProductQty st pid newQty).products := by
  rw [setQuantity_effective_eq st pid oldQty newQty d h hne]
  by_cases hs : snapshotExists st pid d = true
  · rw [update_daily_snapshot_exists_eq pid (classify oldQty newQty)
      |newQty - oldQty| d
      { products := (setProductQty st pid newQty).products
        history := st.history ++ [manualEntry pid oldQty newQty]
        snapshots := st.snapshots }
      newQty hs (lookupQty_setProductQty_self st pid newQty oldQty h)]
    exact ⟨_, rfl, rfl, rfl⟩
  · have hs' : snapshotExists st pid d = false := by simpa using hs
    rw [update_daily_snapshot_new_eq pid (classify oldQty newQty)
      |newQty - oldQty| d
      { products := (setProductQty st pid newQty).products
        history := st.history ++ [manualEntry pid oldQty newQty]
        snapshots := st.snapshots }
      newQty hs' (lookupQty_setProductQty_self st pid newQty oldQty h)]
    exact ⟨_, rfl, rfl, rfl⟩

/-! ### The claims -/

/-- C1: for every product, every ledger entry written by a quantity change
satisfies quantity_after = quantity_before + quantity_change, and for every
pair of consecutive ledger entries of one product in creation order the
later entry's quantity_before equals the earlier entry's quantity_after. -/
theorem C1_ledger_arithmetic_and_continuity (st0 : DBState) (ws : List Write)
    (pid : Nat) (h : LedgerInv st0) :
    ArithOk (runWrites st0 ws) ∧ ChainOk (runWrites st0 ws) pid := by
  obtain ⟨ha, hc, _⟩ := ledgerInv_run st0 ws h
  exact ⟨ha, hc pid⟩

theorem C1_ledger_arithmetic_and_continuity_witness :
    LedgerInv { products := [(1, 100)], history := [], snapshots := [] }
    ∧ (ArithOk (runWrites { products := [(1, 100)], history := [], snapshots := [] }
        [{ pid := 1, newQty := 120, day := 0 }, { pid := 1, newQty := 90, day := 0 }])
      ∧ ChainOk (runWrites { products := [(1, 100)], history := [], snapshots := [] }
        [{ pid := 1, newQty := 120, day := 0 }, { pid := 1, newQty := 90, day := 0 }]) 1) :=
  ⟨ledgerInv_of_no_history _ rfl,
   C1_ledger_arithmetic_and_continuity _ _ 1 (ledgerInv_of_no_history _ rfl)⟩

/-- C2: a manual quantity change with no explicit category is classified as
a pure function of the old and new quantity: a strict decrease yields
activity 'consumption', a strict increase yields 'adjustment', and equal
quantities produce no ledger event. -/
theorem C2_classifier_policy (st : DBState) (pid : Nat) (oldQty newQty : Int)
    (d : Nat) (h : lookupQty st pid = some oldQty) :
    (newQty < oldQty → classify oldQty newQty = Activity.consumption)
    ∧ (oldQty < newQty → classify oldQty newQty = Activity.adjustment)
    ∧ (¬ oldQty = newQty → ∃ st', setQuantity pid newQty d st = Except.ok st'
        ∧ st'.history = st.history ++ [manualEntry pid oldQty newQty]
        ∧ (manualEntry pid oldQty newQty).activity_type = classify oldQty newQty)
    ∧ (oldQty = newQty → ∃ st', setQuantity pid newQty d st = Except.ok st'
        ∧ st'.history = st.history) := by
  refine ⟨?_, ?_, ?_, ?_⟩
  · intro hlt
    unfold classify
    rw [if_pos hlt]
  · intro hlt
    unfold classify
    rw [if_neg (by omega)]
  · intro hne
    obtain ⟨st', h1, h2, _⟩ := setQuantity_effective_ok st pid oldQty newQty d h hne
    exact ⟨st', h1, h2, rfl⟩
  · intro heq
    subst heq
    exact ⟨setProductQty st pid oldQty, setQuantity_noop st pid oldQty d h, rfl⟩

theorem C2_classifier_policy_witness :
    lookupQty { products := [(7, 10)], history := [], snapshots := [] } 7 = some 10
    ∧ (((5 : Int) < 10 → classify 10 5 = Activity.consumption)
      ∧ ((10 : Int) < 5 → classify 10 5 = Activity.adjustment)
      ∧ (¬ (10 : Int) = 5 → ∃ st',
          setQuantity 7 5 0 { products := [(7, 10)], history := [], snapshots := [] }
            = Except.ok st'
          ∧ st'.history = [] ++ [manualEntry 7 10 5]
          ∧ (manualEntry 7 10 5).activity_type = classify 10 5)
      ∧ ((10 : Int) = 5 → ∃ st',
          setQuantity 7 5 0 { products := [(7, 10)], history := [], snapshots := [] }
            = Except.ok st'
          ∧ st'.history = [])) :=
  ⟨rfl, C2_classifier_policy { products := [(7, 10)], history := [], snapshots := [] }
    7 10 5 0 rfl⟩

/-- C5: setting a product's quantity to its current value is a no-op: the
trigger writes zero new ledger entries and leaves the snapshots table, every
field included, unchanged. -/
theorem C5_noop_suppression (st : DBState) (pid : Nat) (q : Int) (d : Nat)
    (h : lookupQty st pid = some q) :
    ∃ st', setQuantity pid q d st = Except.ok st'
      ∧ st'.history = st.history ∧ st'.snapshots = st.snapshots :=
  ⟨setProductQty st pid q, setQuantity_noop st pid q d h, rfl, rfl⟩

/-- A concrete snapshot row shared by several witnesses. -/
def snapA : Snapshot :=
  { product_id := 3
    snapshot_date := 0
    opening_stock := 42
    purchases := 0
    sales := 0
    adjustments := 0
    closing_stock := 42
    max_stock := 42 }

/-- A concrete database state shared by several witnesses. -/
def stateA : DBState :=
  { products := [(3, 42)]
    history := []
    snapshots := [snapA] }

theorem C5_noop_suppression_witness :
    lookupQty stateA 3 = some 42
    ∧ ∃ st', setQuantity 3 42 0 stateA = Except.ok st'
      ∧ st'.history = stateA.history ∧ st'.snapshots = stateA.snapshots :=
  ⟨rfl, C5_noop_suppression stateA 3 42 0 rfl⟩

/-- C3: every snapshot upsert adds the magnitude to exactly the bucket of
its activity category: 'purchase' to purchases, 'sale' and 'consumption' to
sales, 'adjustment' to adjustments, while 'opening_stock' and
'daily_snapshot' increment no bucket; this holds in the update branch (via
the row transformation applied to today's row) and in the create branch
(buckets seeded from zero). -/
theorem C3_bucket_routing (st : DBState) (pid today : Nat) (act : Activity)
    (q liveQty : Int) (s : Snapshot) (h : lookupQty st pid = some liveQty) :
    (snapshotExists st pid today = true →
      update_daily_snapshot pid act q today st = Except.ok { st with
        snapshots := st.snapshots.map (fun r =>
          if r.product_id == pid && r.snapshot_date == today then
            applySnapshotUpdate act q liveQty r else r) })
    ∧ ((applySnapshotUpdate act q liveQty s).purchases
        = s.purchases + (if act = Activity.purchase then q else 0)
      ∧ (applySnapshotUpdate act q liveQty s).sales
        = s.sales + (if act = Activity.sale ∨ act = Activity.consumption then q else 0)
      ∧ (applySnapshotUpdate act q liveQty s).adjustments
        = s.adjustments + (if act = Activity.adjustment then q else 0))
    ∧ (snapshotExists st pid today = false →
      ∃ r : Snapshot, update_daily_snapshot pid act q today st
          = Except.ok { st with snapshots := st.snapshots ++ [r] }
        ∧ r.purchases = (if act = Activity.purchase then q else 0)
        ∧ r.sales = (if act = Activity.sale ∨ act = Activity.consumption then q else 0)
        ∧ r.adjustments = (if act = Activity.adjustment then q else 0))
    ∧ (act = Activity.opening_stock ∨ act = Activity.daily_snapshot →
      (applySnapshotUpdate act q liveQty s).purchases = s.purchases
      ∧ (applySnapshotUpdate act q liveQty s).sales = s.sales
      ∧ (applySnapshotUpdate act q liveQty s).adjustments = s.adjustments) := by
  refine ⟨?_, ?_, ?_, ?_⟩
  · intro hs
    exact update_daily_snapshot_exists_eq pid act q today st liveQty hs h
  · refine ⟨?_, ?_, ?_⟩ <;> cases act <;> simp [applySnapshotUpdate]
  · intro hs
    refine ⟨_, update_daily_snapshot_new_eq pid act q today st liveQty hs h,
      rfl, rfl, rfl⟩
  · intro hact
    rcases hact with hact | hact <;> subst hact <;>
      refine ⟨?_, ?_, ?_⟩ <;> simp [applySnapshotUpdate]

theorem C3_bucket_routing_witness :
    lookupQty stateA 3 = some 42
    ∧ ((snapshotExists stateA 3 0 = true →
        update_daily_snapshot 3 Activity.purchase 20 0 stateA
          = Except.ok { stateA with
              snapshots := stateA.snapshots.map (fun r =>
                if r.product_id == 3 && r.snapshot_date == 0 then
                  applySnapshotUpdate Activity.purchase 20 42 r else r) })
      ∧ ((applySnapshotUpdate Activity.purchase 20 42 snapA).purchases
          = snapA.purchases + (if Activity.purchase = Activity.purchase then 20 else 0)
        ∧ (applySnapshotUpdate Activity.purchase 20 42 snapA).sales
          = snapA.sales + (if Activity.purchase = Activity.sale ∨
              Activity.purchase = Activity.consumption then 20 else 0)
        ∧ (applySnapshotUpdate Activity.purchase 20 42 snapA).adjustments
          = snapA.adjustments + (if Activity.purchase = Activity.adjustment then 20 else 0))
      ∧ (snapshotExists stateA 3 0 = false →
        ∃ r : Snapshot, update_daily_snapshot 3 Activity.purchase 20 0 stateA
          = Except.ok { stateA with snapshots := stateA.snapshots ++ [r] }
          ∧ r.purchases = (if Activity.purchase = Activity.purchase then 20 else 0)
          ∧ r.sales = (if Activity.purchase = Activity.sale ∨
              Activity.purchase = Activity.consumption then 20 else 0)
          ∧ r.adjustments = (if Activity.purchase = Activity.adjustment then 20 else 0))
      ∧ (Activity.purchase = Activity.opening_stock ∨
          Activity.purchase = Activity.daily_snapshot →
        (applySnapshotUpdate Activity.purchase 20 42 snapA).purchases = snapA.purchases
        ∧ (applySnapshotUpdate Activity.purchase 20 42 snapA).sales = snapA.sales
        ∧ (applySnapshotUpdate Activity.purchase 20 42 snapA).adjustments
          = snapA.adjustments)) :=
  ⟨rfl, C3_bucket_routing stateA 3 0 Activity.purchase 20 42 snapA rfl⟩

/-! ### Snapshot row persistence and monotonicity -/

theorem stepWrite_snapshot_mono (st : DBState) (w : Write) :
    ∀ r ∈ st.snapshots, ∃ r' ∈ (stepWrite st w).snapshots,
      r'.product_id = r.product_id ∧ r'.snapshot_date = r.snapshot_date
      ∧ r.max_stock ≤ r'.max_stock ∧ r'.opening_stock = r.opening_stock := by
  intro r hr
  cases hq : lookupQty st w.pid with
  | none =>
      rw [stepWrite_eq_of_none st w hq]
      exact ⟨r, hr, rfl, rfl, le_refl _, rfl⟩
  | some oldQty =>
      by_cases hne : oldQty = w.newQty
      · have hq' : lookupQty st w.pid = some w.newQty := by rw [hq, hne]
        rw [stepWrite_eq_of_noop st w hq']
        exact ⟨r, hr, rfl, rfl, le_refl _, rfl⟩
      · by_cases hs : snapshotExists st w.pid w.day = true
        · rw [stepWrite_effective_exists st w oldQty hq hne hs]
          by_cases hk : (r.product_id == w.pid && r.snapshot_date == w.day) = true
          · refine ⟨applySnapshotUpdate (classify oldQty w.newQty)
              |w.newQty - oldQty| w.newQty r,
              List.mem_map.mpr ⟨r, hr, ?_⟩, rfl, rfl, le_max_left _ _, rfl⟩
            show (if (r.product_id == w.pid && r.snapshot_date == w.day) = true then
                applySnapshotUpdate (classify oldQty w.newQty)
                  |w.newQty - oldQty| w.newQty r
              else r) = _
            rw [if_pos hk]
          · refine ⟨r, List.mem_map.mpr ⟨r, hr, ?_⟩, rfl, rfl, le_refl _, rfl⟩
            show (if (r.product_id == w.pid && r.snapshot_date == w.day) = true then
                applySnapshotUpdate (classify oldQty w.newQty)
                  |w.newQty - oldQty| w.newQty r
              else r) = r
            rw [if_neg hk]
        · have hs' : snapshotExists st w.pid w.day = false := by simpa using hs
          rw [stepWrite_effective_new st w oldQty hq hne hs']
          exact ⟨r, List.mem_append_left _ hr, rfl, rfl, le_refl _, rfl⟩

theorem runWrites_snapshot_mono (st : DBState) (ws : List Write) :
    ∀ r ∈ st.snapshots, ∃ r' ∈ (runWrites st ws).snapshots,
      r'.product_id = r.product_id ∧ r'.snapshot_date = r.snapshot_date
      ∧ r.max_stock ≤ r'.max_stock ∧ r'.opening_stock = r.opening_stock := by
  induction ws generalizing st with
  | nil => exact fun r hr => ⟨r, hr, rfl, rfl, le_refl _, rfl⟩
  | cons w ws ih =>
      intro r hr
      obtain ⟨r1, hr1, hk1, hd1, hm1, ho1⟩ := stepWrite_snapshot_mono st w r hr
      obtain ⟨r2, hr2, hk2, hd2, hm2, ho2⟩ := ih (stepWrite st w) r1 hr1
      exact ⟨r2, hr2, by rw [hk2, hk1], by rw [hd2, hd1],
        le_trans hm1 hm2, by rw [ho2, ho1]⟩

/-- C9: on each update of an existing day snapshot, max_stock is set to the
maximum of its previous value and the live product quantity, and across any
sequence of writes the max_stock of a snapshot row never decreases. -/
theorem C9_max_stock_monotone (st : DBState) (pid today : Nat) (act : Activity)
    (q liveQty : Int) (s : Snapshot) (st0 : DBState) (ws : List Write)
    (h : lookupQty st pid = some liveQty)
    (hs : snapshotExists st pid today = true) :
    (update_daily_snapshot pid act q today st = Except.ok { st with
        snapshots := st.snapshots.map (fun r =>
          if r.product_id == pid && r.snapshot_date == today then
            applySnapshotUpdate act q liveQty r else r) }
      ∧ (applySnapshotUpdate act q liveQty s).max_stock = max s.max_stock liveQty
      ∧ s.max_stock ≤ (applySnapshotUpdate act q liveQty s).max_stock)
    ∧ ∀ r ∈ st0.snapshots, ∃ r' ∈ (runWrites st0 ws).snapshots,
        r'.product_id = r.product_id ∧ r'.snapshot_date = r.snapshot_date
        ∧ r.max_stock ≤ r'.max_stock := by
  refine ⟨⟨update_daily_snapshot_exists_eq pid act q today st liveQty hs h,
    rfl, le_max_left _ _⟩, ?_⟩
  intro r hr
  obtain ⟨r', hr', hk, hd, hm, _⟩ := runWrites_snapshot_mono st0 ws r hr
  exact ⟨r', hr', hk, hd, hm⟩

theorem C9_max_stock_monotone_witness :
    lookupQty stateA 3 = some 42
    ∧ snapshotExists stateA 3 0 = true
    ∧ ((update_daily_snapshot 3 Activity.sale 12 0 stateA
        = Except.ok { stateA with
            snapshots := stateA.snapshots.map (fun r =>
              if r.product_id == 3 && r.snapshot_date == 0 then
                applySnapshotUpdate Activity.sale 12 42 r else r) }
        ∧ (applySnapshotUpdate Activity.sale 12 42 snapA).max_stock
          = max snapA.max_stock 42
        ∧ snapA.max_stock ≤ (applySnapshotUpdate Activity.sale 12 42 snapA).max_stock)
      ∧ ∀ r ∈ stateA.snapshots,
          ∃ r' ∈ (runWrites stateA [{ pid := 3, newQty := 18, day := 0 }]).snapshots,
            r'.product_id = r.product_id ∧ r'.snapshot_date = r.snapshot_date
            ∧ r.max_stock ≤ r'.max_stock) :=
  ⟨rfl, rfl, C9_max_stock_monotone stateA 3 0 Activity.sale 12 42 snapA stateA
    [{ pid := 3, newQty := 18, day := 0 }] rfl rfl⟩

/-- C10: the first quantity-changing write of a day creates the day's
snapshot with opening_stock, closing_stock and max_stock all seeded to the
product's quantity after the triggering change (the trigger fires AFTER the
update, so the insert branch reads the already-updated quantity), and the
opening_stock of an existing snapshot row is never modified by any later
write. -/
theorem C10_first_write_seeding (st : DBState) (w : Write) (oldQty : Int)
    (st0 : DBState) (ws : List Write)
    (h : lookupQty st w.pid = some oldQty) (hne : ¬ oldQty = w.newQty)
    (hs : snapshotExists st w.pid w.day = false) :
    (∃ r : Snapshot, (stepWrite st w).snapshots = st.snapshots ++ [r]
      ∧ r.product_id = w.pid ∧ r.snapshot_date = w.day
      ∧ r.opening_stock = w.newQty ∧ r.closing_stock = w.newQty
      ∧ r.max_stock = w.newQty)
    ∧ ∀ r ∈ st0.snapshots, ∃ r' ∈ (runWrites st0 ws).snapshots,
        r'.product_id = r.product_id ∧ r'.snapshot_date = r.snapshot_date
        ∧ r'.opening_stock = r.opening_stock := by
  constructor
  · rw [stepWrite_effective_new st w oldQty h hne hs]
    exact ⟨_, rfl, rfl, rfl, rfl, rfl, rfl⟩
  · intro r hr
    obtain ⟨r', hr', hk, hd, _, ho⟩ := runWrites_snapshot_mono st0 ws r hr
    exact ⟨r', hr', hk, hd, ho⟩

theorem C10_first_write_seeding_witness :
    lookupQty { products := [(8, 100)], history := [], snapshots := [] } 8
      = some 100
    ∧ ¬ (100 : Int) = 77
    ∧ snapshotExists { products := [(8, 100)], history := [], snapshots := [] }
        8 2 = false
    ∧ ((∃ r : Snapshot,
        (stepWrite { products := [(8, 100)], history := [], snapshots := [] }
          { pid := 8, newQty := 77, day := 2 }).snapshots = [] ++ [r]
        ∧ r.product_id = 8 ∧ r.snapshot_date = 2
        ∧ r.opening_stock = 77 ∧ r.closing_stock = 77 ∧ r.max_stock = 77)
      ∧ ∀ r ∈ stateA.snapshots,
          ∃ r' ∈ (runWrites stateA [{ pid := 3, newQty := 55, day := 0 }]).snapshots,
            r'.product_id = r.product_id ∧ r'.snapshot_date = r.snapshot_date
            ∧ r'.opening_stock = r.opening_stock) :=
  ⟨rfl, by decide, rfl,
   C10_first_write_seeding { products := [(8, 100)], history := [], snapshots := [] }
     { pid := 8, newQty := 77, day := 2 } 100 stateA
     [{ pid := 3, newQty := 55, day := 0 }] rfl (by decide) rfl⟩

/-! ### Closing-stock freshness -/

/-- Every day-d snapshot row of a live product carries the product's live
quantity in closing_stock (re-read from the product row, not accumulated). -/
def SnapCloseInv (st : DBState) (d : Nat) : Prop :=
  ∀ s ∈ st.snapshots, s.snapshot_date = d →
    lookupQty st s.product_id = none
    ∨ lookupQty st s.product_id = some s.closing_stock

theorem snapshotExists_iff (st : DBState) (pid d : Nat) :
    snapshotExists st pid d = true ↔
      ∃ s ∈ st.snapshots, s.product_id = pid ∧ s.snapshot_date = d := by
  simp [snapshotExists, List.any_eq_true]

theorem stepWrite_lookup_effective (st : DBState) (w : Write) (oldQty : Int)
    (h : lookupQty st w.pid = some oldQty) (hne : ¬ oldQty = w.newQty) (p : Nat) :
    lookupQty (stepWrite st w) p
      = if p = w.pid then some w.newQty else lookupQty st p := by
  obtain ⟨hp, _⟩ := stepWrite_effective_core st w oldQty h hne
  rw [lookupQty_congr _ _ p hp]
  by_cases hpw : p = w.pid
  · subst hpw
    rw [if_pos rfl]
    exact lookupQty_setProductQty_self st w.pid w.newQty oldQty h
  · rw [if_neg hpw]
    exact lookupQty_setProductQty_ne st w.pid p w.newQty hpw

theorem stepWrite_snapshotExists_mono (st : DBState) (w : Write) (pid d : Nat)
    (h : snapshotExists st pid d = true) :
    snapshotExists (stepWrite st w) pid d = true := by
  obtain ⟨s, hs, hp, hd⟩ := (snapshotExists_iff st pid d).mp h
  obtain ⟨r', hr', hk, hdd, _, _⟩ := stepWrite_snapshot_mono st w s hs
  exact (snapshotExists_iff _ pid d).mpr ⟨r', hr', by rw [hk, hp], by rw [hdd, hd]⟩

theorem snapCloseInv_step (st : DBState) (w : Write) (d : Nat) (hd : w.day = d)
    (h : SnapCloseInv st d) : SnapCloseInv (stepWrite st w) d := by
  subst hd
  cases hq : lookupQty st w.pid with
  | none =>
      rw [stepWrite_eq_of_none st w hq]
      exact h
  | some oldQty =>
      by_cases hne : oldQty = w.newQty
      · have hq' : lookupQty st w.pid = some w.newQty := by rw [hq, hne]
        rw [stepWrite_eq_of_noop st w hq']
        intro s hs hsd
        rw [lookupQty_setProductQty_same st w.pid w.newQty hq' s.product_id]
        exact h s hs hsd
      · have hlook := stepWrite_lookup_effective st w oldQty hq hne
        by_cases hsx : snapshotExists st w.pid w.day = true
        · have hsnapshots : (stepWrite st w).snapshots = st.snapshots.map (fun s =>
              if s.product_id == w.pid && s.snapshot_date == w.day then
                applySnapshotUpdate (classify oldQty w.newQty)
                  |w.newQty - oldQty| w.newQty s
              else s) := by
            rw [stepWrite_effective_exists st w oldQty hq hne hsx]
          intro s hs hsd
          rw [hsnapshots] at hs
          rw [hlook s.product_id]
          obtain ⟨t, ht, hft⟩ := List.mem_map.mp hs
          have hft' : (if (t.product_id == w.pid && t.snapshot_date == w.day) = true
              then applySnapshotUpdate (classify oldQty w.newQty)
                |w.newQty - oldQty| w.newQty t
              else t) = s := hft
          by_cases hk : (t.product_id == w.pid && t.snapshot_date == w.day) = true
          · have hk1' : t.product_id = w.pid := by
              have hk0 := hk
              simp only [Bool.and_eq_true, beq_iff_eq] at hk0
              exact hk0.1
            have hprod : s.product_id = w.pid := by
              rw [← hft', if_pos hk]
              exact hk1'
            have hclose : s.closing_stock = w.newQty := by
              rw [← hft', if_pos hk]
              rfl
            right
            rw [hprod, if_pos rfl, hclose]
          · rw [if_neg hk] at hft'
            subst hft'
            by_cases hp : t.product_id = w.pid
            · exact absurd (by simp [hp, hsd]) hk
            · rw [if_neg hp]
              exact h t ht hsd
        · have hsx' : snapshotExists st w.pid w.day = false := by simpa using hsx
          have hsnapshots : (stepWrite st w).snapshots = st.snapshots ++ [{
              product_id := w.pid
              snapshot_date := w.day
              opening_stock := w.newQty
              purchases := if classify oldQty w.newQty = Activity.purchase then
                |w.newQty - oldQty| else 0
              sales := if classify oldQty w.newQty = Activity.sale ∨
                  classify oldQty w.newQty = Activity.consumption then
                |w.newQty - oldQty| else 0
              adjustments := if classify oldQty w.newQty = Activity.adjustment then
                |w.newQty - oldQty| else 0
              closing_stock := w.newQty
              max_stock := w.newQty }] := by
            rw [stepWrite_effective_new st w oldQty hq hne hsx']
          intro s hs hsd
          rw [hsnapshots] at hs
          rw [hlook s.product_id]
          rcases List.mem_append.mp hs with hmem | hmem
          · by_cases hp : s.product_id = w.pid
            · exfalso
              have hex : snapshotExists st w.pid w.day = true :=
                (snapshotExists_iff st w.pid w.day).mpr ⟨s, hmem, hp, hsd⟩
              rw [hex] at hsx'
              exact Bool.noConfusion hsx'
            · rw [if_neg hp]
              exact h s hmem hsd
          · have hseq : s = {
                product_id := w.pid
                snapshot_date := w.day
                opening_stock := w.newQty
                purchases := if classify oldQty w.newQty = Activity.purchase then
                  |w.newQty - oldQty| else 0
                sales := if classify oldQty w.newQty = Activity.sale ∨
                    classify oldQty w.newQty = Activity.consumption then
                  |w.newQty - oldQty| else 0
                adjustments := if classify oldQty w.newQty = Activity.adjustment then
                  |w.newQty - oldQty| else 0
                closing_stock := w.newQty
                max_stock := w.newQty } := by simpa using hmem
            subst hseq
            right
            rw [if_pos rfl]

theorem snapCloseInv_run (ws : List Write) (d : Nat) :
    ∀ st, (∀ w ∈ ws, w.day = d) → SnapCloseInv st d →
      SnapCloseInv (runWrites st ws) d := by
  induction ws with
  | nil => exact fun st _ h => h
  | cons w ws ih =>
      intro st hday h
      exact ih (stepWrite st w) (fun w' hw' => hday w' (List.mem_cons_of_mem _ hw'))
        (snapCloseInv_step st w d (hday w (List.mem_cons_self _ _)) h)

/-- C4: after any sequence of same-day writes, every snapshot row of that
day whose product still exists carries the product's live quantity in
closing_stock; a quantity-changing write guarantees the (product, day) row
exists afterwards, and an existing row is never dropped by later writes. -/
theorem C4_closing_stock_freshness (st0 : DBState) (ws : List Write) (d : Nat)
    (st : DBState) (w : Write) (oldQty : Int) (pid : Nat)
    (h0 : SnapCloseInv st0 d) (hday : ∀ w' ∈ ws, w'.day = d) :
    SnapCloseInv (runWrites st0 ws) d
    ∧ (lookupQty st w.pid = some oldQty → ¬ oldQty = w.newQty →
        snapshotExists (stepWrite st w) w.pid w.day = true)
    ∧ (snapshotExists st pid d = true →
        snapshotExists (stepWrite st w) pid d = true) := by
  refine ⟨snapCloseInv_run ws d st0 hday h0, ?_, ?_⟩
  · intro hq hne
    by_cases hsx : snapshotExists st w.pid w.day = true
    · exact stepWrite_snapshotExists_mono st w w.pid w.day hsx
    · have hsx' : snapshotExists st w.pid w.day = false := by simpa using hsx
      have hsnapshots := stepWrite_effective_new st w oldQty hq hne hsx'
      rw [hsnapshots]
      refine (snapshotExists_iff _ w.pid w.day).mpr
        ⟨_, List.mem_append_right _ (List.mem_singleton.mpr rfl), ?_, ?_⟩ <;> rfl
  · intro hsx
    exact stepWrite_snapshotExists_mono st w pid d hsx

theorem C4_closing_stock_freshness_witness :
    SnapCloseInv { products := [(1, 100)], history := [], snapshots := [] } 0
    ∧ (∀ w' ∈ [({ pid := 1, newQty := 120, day := 0 } : Write)], w'.day = 0)
    ∧ (SnapCloseInv (runWrites { products := [(1, 100)], history := [], snapshots := [] }
          [{ pid := 1, newQty := 120, day := 0 }]) 0
      ∧ (lookupQty { products := [(1, 100)], history := [], snapshots := [] } 1
            = some 100 → ¬ (100 : Int) = 120 →
          snapshotExists (stepWrite { products := [(1, 100)], history := [], snapshots := [] }
            { pid := 1, newQty := 120, day := 0 }) 1 0 = true)
      ∧ (snapshotExists { products := [(1, 100)], history := [], snapshots := [] } 1 0 = true →
          snapshotExists (stepWrite { products := [(1, 100)], history := [], snapshots := [] }
            { pid := 1, newQty := 120, day := 0 }) 1 0 = true)) :=
  ⟨fun s hs _ => absurd hs (by simp),
   by decide,
   C4_closing_stock_freshness { products := [(1, 100)], history := [], snapshots := [] }
     [{ pid := 1, newQty := 120, day := 0 }] 0
     { products := [(1, 100)], history := [], snapshots := [] }
     { pid := 1, newQty := 120, day := 0 } 100 1
     (fun s hs _ => absurd hs (by simp)) (by decide)⟩

/-! ### Snapshot key uniqueness -/

/-- Two snapshot rows collide on the `UNIQUE(product_id, snapshot_date)`
key. -/
def sameKey (a b : Snapshot) : Prop :=
  a.product_id = b.product_id ∧ a.snapshot_date = b.snapshot_date

/-- No two rows of the table share a (product_id, snapshot_date) key. -/
def UniqueKeys (tbl : List Snapshot) : Prop :=
  tbl.Pairwise (fun a b => ¬ sameKey a b)

/-- The `UNIQUE(product_id, snapshot_date)` constraint of
`daily_inventory_snapshots`: an INSERT whose key is already present is
rejected by the database. -/
def insertSnapshotRow (tbl : List Snapshot) (s : Snapshot) :
    Except DBErr (List Snapshot) :=
  if tbl.any (fun t => t.product_id == s.product_id
      && t.snapshot_date == s.snapshot_date)
  then Except.error DBErr.uniqueViolation
  else Except.ok (tbl ++ [s])

/-- One primitive statement a writer running `update_daily_snapshot` can
issue against the snapshots table: the INSERT of the create branch (subject
to the unique constraint; a rejected insert aborts that writer's
transaction, leaving the table as it was), or the UPDATE of the update
branch. An interleaving of concurrent writers is a sequence of these. -/
inductive WriterAction where
  | tryInsert (s : Snapshot)
  | updateDay (pid today : Nat) (act : Activity) (q liveQty : Int)

def applyAction (tbl : List Snapshot) (a : WriterAction) : List Snapshot :=
  match a with
  | WriterAction.tryInsert s =>
      match insertSnapshotRow tbl s with
      | Except.ok t => t
      | Except.error _ => tbl
  | WriterAction.updateDay pid today act q liveQty =>
      tbl.map (fun s => if s.product_id == pid && s.snapshot_date == today then
        applySnapshotUpdate act q liveQty s else s)

theorem uniqueKeys_append_row (tbl : List Snapshot) (r : Snapshot)
    (h : UniqueKeys tbl)
    (hn : tbl.any (fun t => t.product_id == r.product_id
      && t.snapshot_date == r.snapshot_date) = false) :
    UniqueKeys (tbl ++ [r]) := by
  unfold UniqueKeys
  rw [List.pairwise_append]
  refine ⟨h, List.pairwise_singleton _ _, ?_⟩
  intro a ha b hb
  have hb' : b = r := by simpa using hb
  subst hb'
  have := List.any_eq_false.mp hn a ha
  intro hkey
  apply this
  simp [hkey.1, hkey.2]

theorem uniqueKeys_map_update (tbl : List Snapshot) (pid today : Nat)
    (act : Activity) (q liveQty : Int) (h : UniqueKeys tbl) :
    UniqueKeys (tbl.map (fun s =>
      if s.product_id == pid && s.snapshot_date == today then
        applySnapshotUpdate act q liveQty s else s)) := by
  unfold UniqueKeys
  rw [List.pairwise_map]
  refine h.imp ?_
  intro a b hab hkey
  apply hab
  have hka : (if (a.product_id == pid && a.snapshot_date == today) = true then
      applySnapshotUpdate act q liveQty a else a).product_id = a.product_id
      ∧ (if (a.product_id == pid && a.snapshot_date == today) = true then
      applySnapshotUpdate act q liveQty a else a).snapshot_date
        = a.snapshot_date := by
    by_cases hk : (a.product_id == pid && a.snapshot_date == today) = true
    · rw [if_pos hk]
      exact ⟨rfl, rfl⟩
    · rw [if_neg hk]
      exact ⟨rfl, rfl⟩
  have hkb : (if (b.product_id == pid && b.snapshot_date == today) = true then
      applySnapshotUpdate act q liveQty b else b).product_id = b.product_id
      ∧ (if (b.product_id == pid && b.snapshot_date == today) = true then
      applySnapshotUpdate act q liveQty b else b).snapshot_date
        = b.snapshot_date := by
    by_cases hk : (b.product_id == pid && b.snapshot_date == today) = true
    · rw [if_pos hk]
      exact ⟨rfl, rfl⟩
    · rw [if_neg hk]
      exact ⟨rfl, rfl⟩
  exact ⟨hka.1 ▸ hkb.1 ▸ hkey.1, hka.2 ▸ hkb.2 ▸ hkey.2⟩

theorem uniqueKeys_applyAction (tbl : List Snapshot) (a : WriterAction)
    (h : UniqueKeys tbl) : UniqueKeys (applyAction tbl a) := by
  cases a with
  | tryInsert s =>
      simp only [applyAction, insertSnapshotRow]
      by_cases hn : tbl.any (fun t => t.product_id == s.product_id
          && t.snapshot_date == s.snapshot_date) = true
      · rw [if_pos hn]
        exact h
      · have hn' : tbl.any (fun t => t.product_id == s.product_id
            && t.snapshot_date == s.snapshot_date) = false := by simpa using hn
        rw [if_neg hn]
        exact uniqueKeys_append_row tbl s h hn'
  | updateDay pid today act q liveQty =>
      exact uniqueKeys_map_update tbl pid today act q liveQty h

/-- C8: at most one daily snapshot row per (product, date): every
interleaving of writer statements — including two concurrent writers both
attempting the first insert of the day, the second of which is rejected by
the unique constraint — preserves key uniqueness, and a successful
`update_daily_snapshot` call preserves it as well. -/
theorem C8_snapshot_uniqueness (init : List Snapshot) (as : List WriterAction)
    (st st' : DBState) (pid : Nat) (act : Activity) (q : Int) (d : Nat)
    (h : UniqueKeys init) :
    UniqueKeys (as.foldl applyAction init)
    ∧ (UniqueKeys st.snapshots →
        update_daily_snapshot pid act q d st = Except.ok st' →
        UniqueKeys st'.snapshots) := by
  constructor
  · induction as generalizing init with
    | nil => exact h
    | cons a as ih => exact ih (applyAction init a) (uniqueKeys_applyAction init a h)
  · intro hu hok
    unfold update_daily_snapshot at hok
    by_cases hex : snapshotExists st pid d = true
    · rw [if_pos hex] at hok
      cases hl : lookupQty st pid with
      | none =>
          rw [hl] at hok
          exact absurd hok (by simp)
      | some liveQty =>
          rw [hl] at hok
          have hst : st' = { st with snapshots := st.snapshots.map (fun s =>
              if s.product_id == pid && s.snapshot_date == d then
                applySnapshotUpdate act q liveQty s else s) } :=
            (Except.ok.inj hok).symm
          subst hst
          exact uniqueKeys_map_update st.snapshots pid d act q liveQty hu
    · rw [if_neg hex] at hok
      have hex' : snapshotExists st pid d = false := by simpa using hex
      cases hl : lookupQty st pid with
      | none =>
          rw [hl] at hok
          have hst : st' = st := (Except.ok.inj hok).symm
          subst hst
          exact hu
      | some qty =>
          rw [hl] at hok
          have hst : st' = { st with snapshots := st.snapshots ++ [{
              product_id := pid
              snapshot_date := d
              opening_stock := qty
              purchases := if act = Activity.purchase then q else 0
              sales := if act = Activity.sale ∨ act = Activity.consumption
                then q else 0
              adjustments := if act = Activity.adjustment then q else 0
              closing_stock := qty
              max_stock := qty }] } := (Except.ok.inj hok).symm
          subst hst
          refine uniqueKeys_append_row st.snapshots
            { product_id := pid
              snapshot_date := d
              opening_stock := qty
              purchases := if act = Activity.purchase then q else 0
              sales := if act = Activity.sale ∨ act = Activity.consumption
                then q else 0
              adjustments := if act = Activity.adjustment then q else 0
              closing_stock := qty
              max_stock := qty } hu ?_
          unfold snapshotExists at hex'
          exact hex'

/-- The post-state of the update-branch upsert used by the C8 witness. -/
def c8state : DBState :=
  { stateA with snapshots := stateA.snapshots.map (fun (s : Snapshot) =>
      if s.product_id == 3 && s.snapshot_date == 0 then
        applySnapshotUpdate Activity.purchase 5 42 s else s) }

theorem C8_snapshot_uniqueness_witness :
    UniqueKeys ([] : List Snapshot)
    ∧ (UniqueKeys (List.foldl applyAction []
        [WriterAction.tryInsert snapA, WriterAction.tryInsert snapA])
      ∧ (UniqueKeys stateA.snapshots →
          update_daily_snapshot 3 Activity.purchase 5 0 stateA
            = Except.ok c8state →
          UniqueKeys c8state.snapshots)) :=
  ⟨List.Pairwise.nil,
   C8_snapshot_uniqueness [] [WriterAction.tryInsert snapA, WriterAction.tryInsert snapA]
     stateA c8state 3 Activity.purchase 5 0 List.Pairwise.nil⟩

/-! ### Validation behavior of the ledger insert and the snapshot upsert -/

/-- A zero-delta history row over an existing product (product 1, quantity
10, change 0). -/
def zeroDeltaEntry : LedgerEntry :=
  { product_id := 1
    activity_type := Activity.adjustment
    quantity_before := 10
    quantity_change := 0
    quantity_after := 10
    reference_type := some RefType.manual
    reference_id := none
    notes := "" }

/-- A history row violating the arithmetic identity
(quantity_after ≠ quantity_before + quantity_change). -/
def badArithEntry : LedgerEntry :=
  { product_id := 1
    activity_type := Activity.adjustment
    quantity_before := 10
    quantity_change := 5
    quantity_after := 99
    reference_type := some RefType.manual
    reference_id := none
    notes := "" }

/-- A one-product state used by the C7 counterexample. -/
def c7state : DBState :=
  { products := [(1, 10)]
    history := []
    snapshots := [] }

/-- C7 fails on the code: the `inventory_history` insert accepts a
zero-delta row and a row violating quantity_after = quantity_before +
quantity_change (no ValidationError is raised — the table has no such check
constraint), and `update_daily_snapshot` invoked for a product id that
references no product succeeds as a silent no-op (the
`INSERT ... SELECT ... FROM products WHERE id = p_product_id` inserts zero
rows) instead of raising an error. -/
theorem C7_counterexample :
    insert_inventory_history c7state zeroDeltaEntry
      = Except.ok { c7state with history := [zeroDeltaEntry] }
    ∧ insert_inventory_history c7state badArithEntry
      = Except.ok { c7state with history := [badArithEntry] }
    ∧ zeroDeltaEntry.quantity_change = 0
    ∧ ¬ badArithEntry.quantity_after
        = badArithEntry.quantity_before + badArithEntry.quantity_change
    ∧ lookupQty c7state 2 = none
    ∧ update_daily_snapshot 2 Activity.purchase 5 0 c7state = Except.ok c7state := by
  refine ⟨rfl, rfl, rfl, ?_, rfl, rfl⟩
  decide

/-- C7 amended: the ledger insert enforces only the foreign key — it fails
(with a foreign-key error, the code's analogue of NotFoundError) when
productId references no product, and otherwise accepts any row, including
zero-delta and arithmetically inconsistent ones; the snapshot upsert for an
unknown product with no pre-existing snapshot row succeeds without touching
any state rather than raising an error. -/
theorem C7_amended_ledger_validation (st st2 : DBState) (e e2 : LedgerEntry)
    (act : Activity) (q : Int) (d : Nat) (pid : Nat) (v : Int)
    (h1 : lookupQty st e.product_id = none)
    (h2 : lookupQty st pid = none)
    (h3 : snapshotExists st pid d = false)
    (h4 : lookupQty st2 e2.product_id = some v) :
    insert_inventory_history st e = Except.error DBErr.foreignKeyViolation
    ∧ update_daily_snapshot pid act q d st = Except.ok st
    ∧ insert_inventory_history st2 e2
        = Except.ok { st2 with history := st2.history ++ [e2] } := by
  refine ⟨?_, ?_, ?_⟩
  · unfold insert_inventory_history
    rw [h1]
  · unfold update_daily_snapshot
    rw [if_neg (by simp [h3]), h2]
  · unfold insert_inventory_history
    rw [h4]

theorem C7_amended_ledger_validation_witness :
    lookupQty c7state 2 = none
    ∧ snapshotExists c7state 2 0 = false
    ∧ lookupQty c7state zeroDeltaEntry.product_id = some 10
    ∧ (insert_inventory_history c7state
          { zeroDeltaEntry with product_id := 2 }
        = Except.error DBErr.foreignKeyViolation
      ∧ update_daily_snapshot 2 Activity.purchase 5 0 c7state = Except.ok c7state
      ∧ insert_inventory_history c7state zeroDeltaEntry
        = Except.ok { c7state with history := c7state.history ++ [zeroDeltaEntry] }) :=
  ⟨rfl, rfl, rfl,
   C7_amended_ledger_validation c7state c7state
     { zeroDeltaEntry with product_id := 2 } zeroDeltaEntry
     Activity.purchase 5 0 2 10 rfl rfl rfl rfl⟩

/-! ### Explicit-category quantity changes from the purchase/invoice flows -/

/-- Modelled from the spec: the purchase and invoice flows (repository
screens whose code is not present under src/; only the trigger and the
schema are) call the Product Store mutation with an explicit category and
reference — the purchase flow with category `purchase` and reference
(`purchase_order`, order id), the invoice flow with category `sale` and
reference (`invoice`, invoice id) — and "the classifier is bypassed
entirely and the explicit category is used": the ledger row records the
explicit category and reference instead of the sign-based heuristic with
reference_type `manual`, and the explicit category is forwarded to the
snapshot upsert with the magnitude of the delta. -/
def quantity_change_with_category (pid : Nat) (newQty : Int) (cat : Activity)
    (rt : RefType) (rid : Nat) (d : Nat) (st : DBState) : Except DBErr DBState :=
  match lookupQty st pid with
  | none => Except.error DBErr.foreignKeyViolation
  | some oldQty =>
      if oldQty = newQty then Except.ok st
      else
        match insert_inventory_history (setProductQty st pid newQty)
          { product_id := pid
            activity_type := cat
            quantity_before := oldQty
            quantity_change := newQty - oldQty
            quantity_after := newQty
            reference_type := some rt
            reference_id := some rid
            notes := "" } with
        | Except.error er => Except.error er
        | Except.ok st1 => update_daily_snapshot pid cat |newQty - oldQty| d st1

/-- The ledger row the explicit-category path records. -/
def explicitEntry (pid : Nat) (oldQty newQty : Int) (cat : Activity)
    (rt : RefType) (rid : Nat) : LedgerEntry :=
  { product_id := pid
    activity_type := cat
    quantity_before := oldQty
    quantity_change := newQty - oldQty
    quantity_after := newQty
    reference_type := some rt
    reference_id := some rid
    notes := "" }

theorem quantity_change_with_category_eq (st : DBState) (pid : Nat)
    (oldQty newQty : Int) (cat : Activity) (rt : RefType) (rid : Nat) (d : Nat)
    (h : lookupQty st pid = some oldQty) (hne : ¬ oldQty = newQty) :
    quantity_change_with_category pid newQty cat rt rid d st =
      update_daily_snapshot pid cat |newQty - oldQty| d
        { products := (setProductQty st pid newQty).products
          history := st.history ++ [explicitEntry pid oldQty newQty cat rt rid]
          snapshots := st.snapshots } := by
  have hl : lookupQty (setProductQty st pid newQty) pid = some newQty :=
    lookupQty_setProductQty_self st pid newQty oldQty h
  simp only [quantity_change_with_category, h, if_neg hne,
    insert_inventory_history, explicitEntry, hl, setProductQty_history,
    setProductQty_snapshots]

/-- C6: a quantity change arriving from the purchase or invoice flow with
an explicit category bypasses the sign-based classifier: the ledger row
records the explicit category and the explicit reference
(`purchase_order`/`invoice` with its id), not the heuristic category with
reference_type `manual`. -/
theorem C6_explicit_category_bypass (st : DBState) (pid : Nat)
    (oldQty newQty : Int) (cat : Activity) (rt : RefType) (rid : Nat) (d : Nat)
    (h : lookupQty st pid = some oldQty) (hne : ¬ oldQty = newQty)
    (hrt : rt = RefType.purchase_order ∨ rt = RefType.invoice) :
    ∃ st', quantity_change_with_category pid newQty cat rt rid d st = Except.ok st'
      ∧ st'.history = st.history ++ [explicitEntry pid oldQty newQty cat rt rid]
      ∧ (explicitEntry pid oldQty newQty cat rt rid).activity_type = cat
      ∧ (explicitEntry pid oldQty newQty cat rt rid).reference_type = some rt
      ∧ (explicitEntry pid oldQty newQty cat rt rid).reference_id = some rid
      ∧ ¬ (explicitEntry pid oldQty newQty cat rt rid).reference_type
          = some RefType.manual := by
  have hman : ¬ (explicitEntry pid oldQty newQty cat rt rid).reference_type
      = some RefType.manual := by
    rcases hrt with hrt | hrt <;> subst hrt <;> simp [explicitEntry]
  rw [quantity_change_with_category_eq st pid oldQty newQty cat rt rid d h hne]
  by_cases hs : snapshotExists st pid d = true
  · rw [update_daily_snapshot_exists_eq pid cat |newQty - oldQty| d
      { products := (setProductQty st pid newQty).products
        history := st.history ++ [explicitEntry pid oldQty newQty cat rt rid]
        snapshots := st.snapshots }
      newQty hs (lookupQty_setProductQty_self st pid newQty oldQty h)]
    exact ⟨_, rfl, rfl, rfl, rfl, rfl, hman⟩
  · have hs' : snapshotExists st pid d = false := by simpa using hs
    rw [update_daily_snapshot_new_eq pid cat |newQty - oldQty| d
      { products := (setProductQty st pid newQty).products
        history := st.history ++ [explicitEntry pid oldQty newQty cat rt rid]
        snapshots := st.snapshots }
      newQty hs' (lookupQty_setProductQty_self st pid newQty oldQty h)]
    exact ⟨_, rfl, rfl, rfl, rfl, rfl, hman⟩

theorem C6_explicit_category_bypass_witness :
    lookupQty stateA 3 = some 42
    ∧ ¬ (42 : Int) = 62
    ∧ (RefType.purchase_order = RefType.purchase_order
        ∨ RefType.purchase_order = RefType.invoice)
    ∧ ∃ st', quantity_change_with_category 3 62 Activity.purchase
          RefType.purchase_order 11 0 stateA = Except.ok st'
      ∧ st'.history = stateA.history
          ++ [explicitEntry 3 42 62 Activity.purchase RefType.purchase_order 11]
      ∧ (explicitEntry 3 42 62 Activity.purchase RefType.purchase_order 11).activity_type
          = Activity.purchase
      ∧ (explicitEntry 3 42 62 Activity.purchase RefType.purchase_order 11).reference_type
          = some RefType.purchase_order
      ∧ (explicitEntry 3 42 62 Activity.purchase RefType.purchase_order 11).reference_id
          = some 11
      ∧ ¬ (explicitEntry 3 42 62 Activity.purchase RefType.purchase_order 11).reference_type
          = some RefType.manual :=
  ⟨rfl, by decide, Or.inl rfl,
   C6_explicit_category_bypass stateA 3 42 62 Activity.purchase
     RefType.purchase_order 11 0 rfl (by decide) (Or.inl rfl)⟩

end Inventory
